import Mathlib

/-!
Verification of the watch-and-relaunch supervisor script
(scripts/borg_the_spire_watch_and_communicate.py).

The script is straight-line code: it builds four paths under a root
directory, creates the copy-slot directory with makedirs(exist_ok = True),
duplicates the build artifact into copy slot 1 with shutil.copyfile, and
then blocks on subprocess.run launching the copied executable with the
arguments "watch <original> <copy_2> communicate <state_path>".

We embed the script shallowly: paths are strings built by os.path.join,
the filesystem is an explicit structure (file contents, unwritable paths,
existing directories), library calls (os.makedirs, shutil.copyfile) are
modelled as functions on that structure returning Except, and the whole
script run is a function producing an exit code, a final filesystem and a
trace of externally visible steps. The slot-rotating copier of the design
document lives in the watched executable, which is outside the sources;
its choice rule is modelled separately from the specification text.
-/

/-- Model of os.path.join for one extra component (POSIX-style separator,
matching the forward slashes used by the script itself). -/
def ospath_join (a b : String) : String := a ++ "/" ++ b

/-- Path of the build artifact, `target/debug/borg_the_spire.exe`
relative to the repository root. -/
def executable_original (root : String) : String :=
  ospath_join root "target/debug/borg_the_spire.exe"

/-- Copy slot 1: `target/borg_the_spire/borg_the_spire_copy_1.exe`. -/
def executable_copy_1 (root : String) : String :=
  ospath_join root "target/borg_the_spire/borg_the_spire_copy_1.exe"

/-- Copy slot 2: `target/borg_the_spire/borg_the_spire_copy_2.exe`. -/
def executable_copy_2 (root : String) : String :=
  ospath_join root "target/borg_the_spire/borg_the_spire_copy_2.exe"

/-- The state-store path, `data/last_state.json`. -/
def last_state_path (root : String) : String :=
  ospath_join root "data/last_state.json"

/-- The directory the script creates before copying,
`target/borg_the_spire`. -/
def copy_slot_dir (root : String) : String :=
  ospath_join root "target/borg_the_spire"

/-- Model of os.path.dirname: everything before the last separator
(empty when the path has no separator). -/
def dirname (p : String) : String :=
  String.mk (((p.data.reverse.dropWhile (fun c => c != '/')).drop 1).reverse)

/-- A filesystem: file contents keyed by path (first entry wins),
paths that cannot be opened for writing, and existing directories. -/
structure FS where
  files : List (String × List Nat)
  unwritable : List String
  dirs : List String
  deriving DecidableEq, Repr

deriving instance DecidableEq for Except

/-- Read a file, returning its bytes, or none when it does not exist
(cannot be opened for reading). -/
def readFile (fs : FS) (p : String) : Option (List Nat) :=
  (fs.files.find? (fun e => e.1 == p)).map (fun e => e.2)

/-- The ways shutil.copyfile can raise an OSError: the source cannot be
opened for reading, the destination directory does not exist, or the
destination cannot be opened for writing. -/
inductive CopyReason where
  | srcUnreadable
  | parentMissing
  | dstUnwritable
  deriving DecidableEq, Repr

/-- Model of shutil.copyfile(src, dst): open src for reading, open dst
for writing (fails when the parent directory is missing or the path is
unwritable), then write the bytes of src to dst, overwriting whatever
was there. On failure nothing is recorded at dst and the error
propagates. -/
def copyfile (fs : FS) (src dst : String) : Except CopyReason FS :=
  match readFile fs src with
  | none => .error .srcUnreadable
  | some bytes =>
      if fs.dirs.contains (dirname dst) = false then .error .parentMissing
      else if fs.unwritable.contains dst then .error .dstUnwritable
      else .ok { fs with files := (dst, bytes) :: fs.files }

/-- The one error os.makedirs can raise in this model: the directory
exists and exist_ok is false. -/
inductive MkdirsReason where
  | fileExists
  deriving DecidableEq, Repr

/-- Model of os.makedirs(path, exist_ok): raises FileExistsError when
the directory exists and exist_ok is false, otherwise records the
directory (and succeeds whether or not it already existed). -/
def makedirs (fs : FS) (path : String) (exist_ok : Bool) : Except MkdirsReason FS :=
  if fs.dirs.contains path && !exist_ok then .error .fileExists
  else .ok { fs with dirs := path :: fs.dirs }

/-- Externally visible steps the script performs, in order. A
copyAttempt records the source, destination and whether the copy
succeeded; spawn is the moment subprocess.run starts the child; reap is
the moment subprocess.run returns because the child exited. -/
inductive Step where
  | mkdirs (path : String) (exist_ok : Bool)
  | copyAttempt (src dst : String) (ok : Bool)
  | spawn (argv : List String)
  | reap
  deriving DecidableEq, Repr

/-- The argument vector the script hands to subprocess.run:
the launched program (copy slot 1) followed by
watch, the original artifact, copy slot 2, communicate, the state path. -/
def script_argv (root : String) : List String :=
  [executable_copy_1 root, "watch", executable_original root,
   executable_copy_2 root, "communicate", last_state_path root]

/-- Outcome of one run of the script under Python semantics: the process
exit code (0 on normal completion, 1 on an uncaught exception), the
final filesystem, and the ordered trace of steps performed. -/
structure RunOutcome where
  exitCode : Nat
  fs : FS
  steps : List Step
  deriving DecidableEq, Repr

/-- The whole script, line by line: makedirs on the copy-slot directory
with exist_ok = True; shutil.copyfile of the artifact into copy slot 1
(an uncaught OSError ends the run with exit code 1); subprocess.run of
the copied executable with the watch/communicate arguments, blocking
until the child exits; then the script ends with exit code 0. -/
def run_script (root : String) (fs0 : FS) : RunOutcome :=
  match makedirs fs0 (copy_slot_dir root) true with
  | .error _ => { exitCode := 1, fs := fs0, steps := [] }
  | .ok fs1 =>
      match copyfile fs1 (executable_original root) (executable_copy_1 root) with
      | .error _ =>
          { exitCode := 1, fs := fs1,
            steps := [.mkdirs (copy_slot_dir root) true,
                      .copyAttempt (executable_original root) (executable_copy_1 root) false] }
      | .ok fs2 =>
          { exitCode := 0, fs := fs2,
            steps := [.mkdirs (copy_slot_dir root) true,
                      .copyAttempt (executable_original root) (executable_copy_1 root) true,
                      .spawn (script_argv root),
                      .reap] }

/-- The filesystem right after the makedirs line (which always succeeds
because exist_ok is true). -/
def fs_after_mkdirs (root : String) (fs : FS) : FS :=
  { fs with dirs := copy_slot_dir root :: fs.dirs }

/-- Number of instances alive after a trace: spawns minus reaps. -/
def aliveAfter (steps : List Step) : Nat :=
  steps.foldl
    (fun n s =>
      match s with
      | .spawn _ => n + 1
      | .reap => n - 1
      | _ => n) 0

/-- The argument vectors of all spawns in a trace, in order. -/
def spawnArgvs (steps : List Step) : List (List String) :=
  steps.filterMap (fun s => match s with | .spawn a => some a | _ => none)

/-- Destinations of the copies that were performed (succeeded). -/
def copyDstsPerformed (steps : List Step) : List String :=
  steps.filterMap
    (fun s => match s with | .copyAttempt _ d true => some d | _ => none)

/-- Source/destination pairs of all copy attempts, failed ones included. -/
def copyAttemptsOf (steps : List Step) : List (String × String) :=
  steps.filterMap
    (fun s => match s with | .copyAttempt a d _ => some (a, d) | _ => none)

/-- The step is a copy (attempt) into slot s. -/
def isCopyTo (s : String) : Step → Bool
  | .copyAttempt _ d _ => d == s
  | _ => false

/-- The step launches a process from slot s
(s is the program, the head of the argument vector). -/
def isSpawnFrom (s : String) : Step → Bool
  | .spawn a => a.head? == some s
  | _ => false

/-- Modelled from the spec: the slot-rotating copier's slot choice rule,
"choose the first candidate slot different from previous_slot". The
rotation logic itself lives in the watched executable, which is not among
the repository sources; only its argument convention appears in the
script, so the choice rule is taken from the specification text. -/
def choose_slot (candidate_slots : List String) (previous_slot : Option String) :
    Option String :=
  candidate_slots.find? (fun s => previous_slot != some s)

/-- Modelled from the spec: the slot chosen at each consecutive rotation,
starting from no previous slot, each rotation excluding the slot chosen
by the one before it. -/
def rotation_seq (candidate_slots : List String) : Nat → Option String
  | 0 => choose_slot candidate_slots none
  | n + 1 => choose_slot candidate_slots (rotation_seq candidate_slots n)

/-- A demonstration filesystem: the artifact exists under root "r",
nothing is unwritable, no directory exists yet. -/
def fsDemo : FS := { files := [(executable_original "r", [7])], unwritable := [], dirs := [] }

/-- A demonstration filesystem with no files at all: the artifact is
unreadable. -/
def fsEmpty : FS := { files := [], unwritable := [], dirs := [] }

/-! ## Helper lemmas -/

theorem string_data_append (a b : String) : (a ++ b).data = a.data ++ b.data := rfl

theorem dropWhile_append_of_all {p : Char → Bool} {l₁ l₂ : List Char}
    (h : ∀ c ∈ l₁, p c = true) :
    (l₁ ++ l₂).dropWhile p = l₂.dropWhile p := by
  induction l₁ with
  | nil => rfl
  | cons a l ih =>
      simp only [List.cons_append, List.dropWhile_cons]
      rw [h a (by simp)]
      exact ih (fun c hc => h c (by simp [hc]))

/-- dirname peels off a final separator-free component. -/
theorem dirname_join (d name : String)
    (h : ∀ c ∈ name.data, (c != '/') = true) :
    dirname (d ++ "/" ++ name) = d := by
  have hdata : (d ++ "/" ++ name).data = d.data ++ ('/' :: name.data) := by
    simp [string_data_append, List.append_assoc]
  unfold dirname
  rw [hdata]
  rw [List.reverse_append]
  have : ('/' :: name.data).reverse = name.data.reverse ++ ['/'] := by
    simp
  rw [this, List.append_assoc]
  rw [dropWhile_append_of_all (fun c hc => h c (List.mem_reverse.mp hc))]
  simp [List.dropWhile_cons]

/-- The two copy-slot paths differ, whatever the root is. -/
theorem slots_distinct (root : String) :
    executable_copy_1 root ≠ executable_copy_2 root := by
  intro h
  have h2 : (executable_copy_1 root).data = (executable_copy_2 root).data := by rw [h]
  simp [executable_copy_1, executable_copy_2, ospath_join, string_data_append,
    List.append_assoc] at h2

/-- Copy slot 1 splits as the copy-slot directory, a separator, and a
final component. -/
theorem copy1_decomp (root : String) :
    executable_copy_1 root =
      copy_slot_dir root ++ "/" ++ "borg_the_spire_copy_1.exe" := by
  apply String.ext
  simp [executable_copy_1, copy_slot_dir, ospath_join, string_data_append,
    List.append_assoc]

/-- The parent directory of copy slot 1 is exactly the directory the
script creates. -/
theorem dirname_copy1 (root : String) :
    dirname (executable_copy_1 root) = copy_slot_dir root := by
  rw [copy1_decomp]
  exact dirname_join _ _ (by decide)

/-- A joined path is longer than its last component, so it never equals
a short literal such as a mode word. -/
theorem ospath_join_ne (root p s : String)
    (h : s.data.length < p.data.length + 1) : ospath_join root p ≠ s := by
  intro he
  have h2 : (ospath_join root p).data.length = s.data.length := by rw [he]
  have h3 : (ospath_join root p).data.length =
      root.data.length + 1 + p.data.length := by
    simp [ospath_join, string_data_append]
    omega
  omega

/-- With exist_ok = true, makedirs always succeeds and records the
directory. -/
theorem makedirs_exist_ok (fs : FS) (p : String) :
    makedirs fs p true = .ok { fs with dirs := p :: fs.dirs } := by
  simp [makedirs]

/-- run_script reduces to the copyfile case split over the filesystem
obtained from the (always successful) makedirs line. -/
theorem run_script_unfold (root : String) (fs : FS) :
    run_script root fs =
      match copyfile (fs_after_mkdirs root fs) (executable_original root)
          (executable_copy_1 root) with
      | .error _ =>
          { exitCode := 1, fs := fs_after_mkdirs root fs,
            steps := [.mkdirs (copy_slot_dir root) true,
                      .copyAttempt (executable_original root) (executable_copy_1 root) false] }
      | .ok fs2 =>
          { exitCode := 0, fs := fs2,
            steps := [.mkdirs (copy_slot_dir root) true,
                      .copyAttempt (executable_original root) (executable_copy_1 root) true,
                      .spawn (script_argv root),
                      .reap] } := by
  unfold run_script
  rw [makedirs_exist_ok]
  rfl

/-- With two distinct slots the rotation sequence is: slot 1 on even
steps, slot 2 on odd steps. -/
theorem rotation_seq_two (a b : String) (hab : a ≠ b) :
    ∀ n, rotation_seq [a, b] n = some (if n % 2 = 0 then a else b) := by
  intro n
  induction n with
  | zero => simp [rotation_seq, choose_slot]
  | succ n ih =>
      rw [show rotation_seq [a, b] (n + 1)
            = choose_slot [a, b] (rotation_seq [a, b] n) from rfl, ih]
      by_cases h : n % 2 = 0
      · have h1 : (n + 1) % 2 ≠ 0 := by omega
        simp [h, h1, choose_slot, hab, hab.symm]
      · have h1 : (n + 1) % 2 = 0 := by omega
        simp [h, h1, choose_slot, hab, hab.symm]

/-- A run that spawns anything spawns with the script's argument vector,
and its trace is the four-step success trace. -/
theorem spawn_mem_success (root : String) (fs : FS) (a : List String)
    (h : Step.spawn a ∈ (run_script root fs).steps) :
    a = script_argv root
    ∧ (run_script root fs).steps
        = [Step.mkdirs (copy_slot_dir root) true,
           Step.copyAttempt (executable_original root) (executable_copy_1 root) true,
           Step.spawn (script_argv root), Step.reap] := by
  rw [run_script_unfold] at h ⊢
  cases hc : copyfile (fs_after_mkdirs root fs) (executable_original root)
      (executable_copy_1 root) with
  | error e => rw [hc] at h; simp at h
  | ok fs2 =>
      rw [hc] at h
      simp at h
      exact ⟨h, rfl⟩

/-- The mode word of the initialize invocation never occurs among the
script's arguments: each path argument is longer than that word, and the
literal words are watch and communicate. -/
theorem no_init_mode_in_argv (root : String) : "initialize" ∉ script_argv root := by
  intro h
  have h6 : "initialize" = executable_copy_1 root ∨ "initialize" = "watch"
      ∨ "initialize" = executable_original root
      ∨ "initialize" = executable_copy_2 root
      ∨ "initialize" = "communicate"
      ∨ "initialize" = last_state_path root := by
    simpa [script_argv] using h
  rw [executable_copy_1, executable_copy_2, executable_original, last_state_path] at h6
  rcases h6 with h1 | h1 | h1 | h1 | h1 | h1
  · exact ospath_join_ne root _ _ (by decide) h1.symm
  · exact absurd h1 (by decide)
  · exact ospath_join_ne root _ _ (by decide) h1.symm
  · exact ospath_join_ne root _ _ (by decide) h1.symm
  · exact absurd h1 (by decide)
  · exact ospath_join_ne root _ _ (by decide) h1.symm

/-! ## Claims -/

/-- C1: when the script launches the target executable, the argument
vector handed to subprocess.run is exactly the launched copy (slot 1)
followed by the argument list watch, the original artifact path, the
other (non-live) copy slot as the hint, communicate, and the state-store
path; and the hint slot really is the other slot, distinct from the one
the process runs from. -/
theorem launch_argv_exact (root : String) (fs : FS) (a : List String)
    (h : Step.spawn a ∈ (run_script root fs).steps) :
    a = executable_copy_1 root ::
        ["watch", executable_original root, executable_copy_2 root,
         "communicate", last_state_path root]
    ∧ executable_copy_2 root ≠ executable_copy_1 root :=
  ⟨(spawn_mem_success root fs a h).1, (slots_distinct root).symm⟩

/-- C1 witness: on a concrete filesystem holding the artifact, the spawn
happens and its argument vector is the one above. -/
theorem launch_argv_exact_witness :
    Step.spawn (script_argv "r") ∈ (run_script "r" fsDemo).steps
    ∧ (script_argv "r" = executable_copy_1 "r" ::
        ["watch", executable_original "r", executable_copy_2 "r",
         "communicate", last_state_path "r"]
      ∧ executable_copy_2 "r" ≠ executable_copy_1 "r") :=
  ⟨by decide, launch_argv_exact "r" fsDemo (script_argv "r") (by decide)⟩

/-- C2: at every point of every run of the script (every prefix of its
step trace), at most one launched instance is alive, and in particular
at most one is alive when the script itself exits (the full trace). -/
theorem at_most_one_alive (root : String) (fs : FS) :
    (∀ n, aliveAfter ((run_script root fs).steps.take n) ≤ 1)
    ∧ aliveAfter (run_script root fs).steps ≤ 1 := by
  rw [run_script_unfold]
  cases copyfile (fs_after_mkdirs root fs) (executable_original root)
      (executable_copy_1 root) with
  | error e =>
      refine ⟨fun n => ?_, by simp [aliveAfter]⟩
      rcases n with _ | _ | n <;> simp [aliveAfter, List.take]
  | ok fs2 =>
      refine ⟨fun n => ?_, by simp [aliveAfter]⟩
      rcases n with _ | _ | _ | _ | n <;> simp [aliveAfter, List.take]

/-- C4: whenever copyfile succeeds, the destination afterwards holds
exactly the bytes the source held at the moment of copying. -/
theorem copy_is_exact (fs : FS) (src dst : String) (fs2 : FS)
    (h : copyfile fs src dst = .ok fs2) :
    readFile fs2 dst = readFile fs src := by
  unfold copyfile at h
  split at h
  next heq => exact absurd h (by simp)
  next bytes heq =>
    split at h
    · exact absurd h (by simp)
    · split at h
      · exact absurd h (by simp)
      · injection h with h2
        subst h2
        rw [heq]
        simp [readFile]

/-- C4 witness: copying a concrete two-byte file really reproduces its
content at the destination. -/
theorem copy_is_exact_witness :
    copyfile { files := [("a", [1, 2])], unwritable := [], dirs := [""] } "a" "b"
      = .ok { files := [("b", [1, 2]), ("a", [1, 2])], unwritable := [], dirs := [""] }
    ∧ readFile { files := [("b", [1, 2]), ("a", [1, 2])], unwritable := [], dirs := [""] } "b"
      = readFile { files := [("a", [1, 2])], unwritable := [], dirs := [""] } "a" :=
  ⟨by decide,
   copy_is_exact { files := [("a", [1, 2])], unwritable := [], dirs := [""] } "a" "b"
     { files := [("b", [1, 2]), ("a", [1, 2])], unwritable := [], dirs := [""] } (by decide)⟩

/-- C3: the copier never chooses the slot equal to previous_slot; on
first start (previous_slot = none) it chooses the first candidate, which
is exactly the slot the script duplicates the artifact into (copy 1);
and over consecutive rotations of the two slots the chosen slot strictly
alternates. The choice rule is modelled from the specification (the
rotation logic lives in the watched executable, outside the sources);
the last conjunct ties it to the script's own single copy. -/
theorem slot_choice_rotation (root : String) (fs : FS) :
    (∀ prev s,
        choose_slot [executable_copy_1 root, executable_copy_2 root] prev = some s
        → prev ≠ some s)
    ∧ choose_slot [executable_copy_1 root, executable_copy_2 root] none
        = some (executable_copy_1 root)
    ∧ (∀ n, rotation_seq [executable_copy_1 root, executable_copy_2 root] (n + 1)
        ≠ rotation_seq [executable_copy_1 root, executable_copy_2 root] n)
    ∧ copyDstsPerformed (run_script root fs).steps ⊆ [executable_copy_1 root] := by
  refine ⟨?_, ?_, ?_, ?_⟩
  · intro prev s hfind
    have hp := List.find?_some hfind
    intro he
    rw [he] at hp
    simp at hp
  · simp [choose_slot]
  · intro n
    rw [rotation_seq_two _ _ (slots_distinct root) (n + 1),
      rotation_seq_two _ _ (slots_distinct root) n]
    by_cases h : n % 2 = 0
    · have h1 : (n + 1) % 2 ≠ 0 := by omega
      simp [h, h1, (slots_distinct root).symm]
    · have h1 : (n + 1) % 2 = 0 := by omega
      simp [h, h1, slots_distinct root]
  · rw [run_script_unfold]
    cases copyfile (fs_after_mkdirs root fs) (executable_original root)
        (executable_copy_1 root) with
    | error e => simp [copyDstsPerformed]
    | ok fs2 => simp [copyDstsPerformed]

/-- C3 witness: concretely, with the previous slot being copy 2, the
copier picks copy 1 (which differs from it), and from no previous slot it
picks copy 1. -/
theorem slot_choice_rotation_witness :
    (some (executable_copy_2 "r") : Option String) ≠ some (executable_copy_1 "r")
    ∧ choose_slot [executable_copy_1 "r", executable_copy_2 "r"] none
        = some (executable_copy_1 "r") :=
  ⟨(slot_choice_rotation "r" fsDemo).1 (some (executable_copy_2 "r"))
      (executable_copy_1 "r") (by decide),
   (slot_choice_rotation "r" fsDemo).2.1⟩

/-- C10: the makedirs call always succeeds with exist_ok = true (also
when the directory already exists, since the filesystem is universally
quantified), records the copy-slot directory, and afterwards the copy
into slot 1 can never fail with a missing parent directory. -/
theorem mkdirs_then_copy_parent_exists (root : String) (fs : FS) :
    makedirs fs (copy_slot_dir root) true
        = .ok { fs with dirs := copy_slot_dir root :: fs.dirs }
    ∧ ∀ fs1, makedirs fs (copy_slot_dir root) true = .ok fs1 →
        ∀ src, copyfile fs1 src (executable_copy_1 root)
          ≠ .error CopyReason.parentMissing := by
  refine ⟨makedirs_exist_ok fs (copy_slot_dir root), ?_⟩
  intro fs1 h1 src
  rw [makedirs_exist_ok] at h1
  injection h1 with h1
  subst h1
  unfold copyfile
  cases readFile { fs with dirs := copy_slot_dir root :: fs.dirs } src with
  | none => simp
  | some bytes =>
      have hdir : ({ fs with dirs := copy_slot_dir root :: fs.dirs } : FS).dirs.contains
          (dirname (executable_copy_1 root)) = true := by
        rw [dirname_copy1]
        simp
      simp only [hdir]
      split
      · simp_all
      · split <;> simp

/-- C10 witness: with the copy-slot directory already present, makedirs
still succeeds, and the copy into slot 1 does not fail for a missing
parent. -/
theorem mkdirs_then_copy_parent_exists_witness :
    makedirs { files := [], unwritable := [], dirs := [copy_slot_dir "r"] }
        (copy_slot_dir "r") true
      = .ok { files := [], unwritable := [],
              dirs := [copy_slot_dir "r", copy_slot_dir "r"] }
    ∧ copyfile { files := [], unwritable := [],
                 dirs := [copy_slot_dir "r", copy_slot_dir "r"] }
        "x" (executable_copy_1 "r") ≠ .error CopyReason.parentMissing :=
  ⟨(mkdirs_then_copy_parent_exists "r"
      { files := [], unwritable := [], dirs := [copy_slot_dir "r"] }).1,
   (mkdirs_then_copy_parent_exists "r"
      { files := [], unwritable := [], dirs := [copy_slot_dir "r"] }).2
     { files := [], unwritable := [], dirs := [copy_slot_dir "r", copy_slot_dir "r"] }
     (mkdirs_then_copy_parent_exists "r"
        { files := [], unwritable := [], dirs := [copy_slot_dir "r"] }).1 "x"⟩

/-- C5 counterexample: with an unreadable artifact, the run makes
exactly one copy attempt and exits fatally at once — the caller performs
no retry at all, contradicting the claimed delayed, backed-off retries. -/
theorem copy_retry_counterexample :
    copyAttemptsOf (run_script "r" fsEmpty).steps
      = [(executable_original "r", executable_copy_1 "r")]
    ∧ (run_script "r" fsEmpty).exitCode = 1 := by
  decide

/-- C5 as amended: if the artifact cannot be read or the destination
cannot be written, copyfile fails with the corresponding error (never
reports success), and the script does not retry: a copy failure leaves a
single attempt in the trace, no launch, and an immediately fatal
non-zero exit. -/
theorem copy_failure_no_retry (root : String) (fs : FS) :
    (∀ src dst, readFile fs src = none →
        copyfile fs src dst = .error CopyReason.srcUnreadable)
    ∧ (∀ src dst bytes, readFile fs src = some bytes →
        fs.dirs.contains (dirname dst) = true →
        fs.unwritable.contains dst = true →
        copyfile fs src dst = .error CopyReason.dstUnwritable)
    ∧ (∀ e, copyfile (fs_after_mkdirs root fs) (executable_original root)
          (executable_copy_1 root) = .error e →
        (run_script root fs).exitCode = 1
        ∧ copyAttemptsOf (run_script root fs).steps
            = [(executable_original root, executable_copy_1 root)]
        ∧ spawnArgvs (run_script root fs).steps = []) := by
  refine ⟨?_, ?_, ?_⟩
  · intro src dst h
    simp [copyfile, h]
  · intro src dst bytes h h1 h2
    have h1m : dirname dst ∈ fs.dirs := by simpa using h1
    have h2m : dst ∈ fs.unwritable := by simpa using h2
    simp [copyfile, h, h1m, h2m]
  · intro e he
    rw [run_script_unfold, he]
    simp [copyAttemptsOf, spawnArgvs]

/-- C5 witness: on a concrete empty filesystem the copy fails as
srcUnreadable and the run exits 1 without launching anything. -/
theorem copy_failure_no_retry_witness :
    copyfile fsEmpty "a" "b" = .error CopyReason.srcUnreadable
    ∧ (run_script "r" fsEmpty).exitCode = 1
    ∧ spawnArgvs (run_script "r" fsEmpty).steps = [] :=
  ⟨(copy_failure_no_retry "r" fsEmpty).1 "a" "b" (by decide),
   ((copy_failure_no_retry "r" fsEmpty).2.2 CopyReason.srcUnreadable (by decide)).1,
   ((copy_failure_no_retry "r" fsEmpty).2.2 CopyReason.srcUnreadable (by decide)).2.2⟩

/-- C6: writes never hit a slot backing a live instance: every copy into
a slot occurs strictly before any launch from that slot, and after such a
launch no step is a copy into that slot again (positions are indices into
the trace; the launched process is alive from the spawn on, so any later
index is within or after its lifetime). -/
theorem no_write_to_live_slot (root : String) (fs : FS) (s : String)
    (i j k : Nat)
    (hci : ∃ st, (run_script root fs).steps[i]? = some st ∧ isCopyTo s st = true)
    (hsj : ∃ st, (run_script root fs).steps[j]? = some st ∧ isSpawnFrom s st = true)
    (hjk : j < k) :
    i < j ∧ ∀ st, (run_script root fs).steps[k]? = some st → isCopyTo s st = false := by
  rw [run_script_unfold] at hci hsj ⊢
  cases hc : copyfile (fs_after_mkdirs root fs) (executable_original root)
      (executable_copy_1 root) with
  | error e =>
      rw [hc] at hci hsj
      rcases hsj with ⟨st, hget, hspawn⟩
      rcases j with _ | _ | j
      · simp only [List.getElem?_cons_zero, Option.some.injEq] at hget
        subst hget
        simp [isSpawnFrom] at hspawn
      · simp only [List.getElem?_cons_succ, List.getElem?_cons_zero,
          Option.some.injEq] at hget
        subst hget
        simp [isSpawnFrom] at hspawn
      · simp only [List.getElem?_cons_succ, List.getElem?_nil] at hget
        exact absurd hget (by simp)
  | ok fs2 =>
      rw [hc] at hci hsj
      rcases hsj with ⟨st, hget, hspawn⟩
      rcases hci with ⟨st2, hget2, hcopy⟩
      rcases j with _ | _ | _ | _ | j
      · simp only [List.getElem?_cons_zero, Option.some.injEq] at hget
        subst hget
        simp [isSpawnFrom] at hspawn
      · simp only [List.getElem?_cons_succ, List.getElem?_cons_zero,
          Option.some.injEq] at hget
        subst hget
        simp [isSpawnFrom] at hspawn
      · rcases i with _ | _ | _ | _ | i
        · simp only [List.getElem?_cons_zero, Option.some.injEq] at hget2
          subst hget2
          simp [isCopyTo] at hcopy
        · refine ⟨by omega, ?_⟩
          intro st3 hget3
          rcases k with _ | _ | _ | _ | k
          · omega
          · omega
          · omega
          · simp only [List.getElem?_cons_succ, List.getElem?_cons_zero,
              Option.some.injEq] at hget3
            subst hget3
            simp [isCopyTo]
          · simp only [List.getElem?_cons_succ, List.getElem?_nil] at hget3
            exact absurd hget3 (by simp)
        · simp only [List.getElem?_cons_succ, List.getElem?_cons_zero,
            Option.some.injEq] at hget2
          subst hget2
          simp [isCopyTo] at hcopy
        · simp only [List.getElem?_cons_succ, List.getElem?_cons_zero,
            Option.some.injEq] at hget2
          subst hget2
          simp [isCopyTo] at hcopy
        · simp only [List.getElem?_cons_succ, List.getElem?_nil] at hget2
          exact absurd hget2 (by simp)
      · simp only [List.getElem?_cons_succ, List.getElem?_cons_zero,
          Option.some.injEq] at hget
        subst hget
        simp [isSpawnFrom] at hspawn
      · simp only [List.getElem?_cons_succ, List.getElem?_nil] at hget
        exact absurd hget (by simp)

/-- C6 witness: in the concrete successful run, the copy into slot 1 is
at index 1, the launch from slot 1 at index 2, and the step at index 3
is not a copy into that slot. -/
theorem no_write_to_live_slot_witness :
    (1 : Nat) < 2 ∧ isCopyTo (executable_copy_1 "r") Step.reap = false :=
  ⟨(no_write_to_live_slot "r" fsDemo (executable_copy_1 "r") 1 2 3
      ⟨Step.copyAttempt (executable_original "r") (executable_copy_1 "r") true,
        by decide, by decide⟩
      ⟨Step.spawn (script_argv "r"), by decide, by decide⟩ (by decide)).1,
   (no_write_to_live_slot "r" fsDemo (executable_copy_1 "r") 1 2 3
      ⟨Step.copyAttempt (executable_original "r") (executable_copy_1 "r") true,
        by decide, by decide⟩
      ⟨Step.spawn (script_argv "r"), by decide, by decide⟩ (by decide)).2
     Step.reap (by decide)⟩

/-- C7 counterexample: in a run that launches, the launch arguments are
the watch/communicate arguments and the initialize mode word is not
among them — the initial launch is not in initialize mode. -/
theorem starting_mode_counterexample :
    spawnArgvs (run_script "r" fsDemo).steps = [script_argv "r"]
    ∧ "initialize" ∉ script_argv "r" := by
  refine ⟨by decide, by decide⟩

/-- C7 as amended: in the starting phase the script first obtains the
initial copy into slot A — the slot the spec-modelled copier picks with
previous_slot = none — and then launches that same copy with the
state-store path as an argument, but in watch/communicate (resume) mode,
not in initialize mode. -/
theorem starting_copy_then_launch (root : String) (fs : FS) (a : List String)
    (h : Step.spawn a ∈ (run_script root fs).steps) :
    choose_slot [executable_copy_1 root, executable_copy_2 root] none
        = some (executable_copy_1 root)
    ∧ (run_script root fs).steps
        = [Step.mkdirs (copy_slot_dir root) true,
           Step.copyAttempt (executable_original root) (executable_copy_1 root) true,
           Step.spawn a, Step.reap]
    ∧ a.head? = some (executable_copy_1 root)
    ∧ "communicate" ∈ a
    ∧ last_state_path root ∈ a
    ∧ "initialize" ∉ a := by
  obtain ⟨ha, hsteps⟩ := spawn_mem_success root fs a h
  subst ha
  refine ⟨by simp [choose_slot], hsteps, rfl, ?_, ?_, no_init_mode_in_argv root⟩
  · simp [script_argv]
  · simp [script_argv]

/-- C7 witness: the concrete successful run satisfies the amended
starting-phase description. -/
theorem starting_copy_then_launch_witness :
    choose_slot [executable_copy_1 "r", executable_copy_2 "r"] none
        = some (executable_copy_1 "r")
    ∧ (run_script "r" fsDemo).steps
        = [Step.mkdirs (copy_slot_dir "r") true,
           Step.copyAttempt (executable_original "r") (executable_copy_1 "r") true,
           Step.spawn (script_argv "r"), Step.reap]
    ∧ (script_argv "r").head? = some (executable_copy_1 "r")
    ∧ "communicate" ∈ script_argv "r"
    ∧ last_state_path "r" ∈ script_argv "r"
    ∧ "initialize" ∉ script_argv "r" :=
  starting_copy_then_launch "r" fsDemo (script_argv "r") (by decide)

/-- C8: the script exits 0 exactly on the clean path — the child was
launched and subprocess.run returned after it exited (a reap is in the
trace) — and exits non-zero (1, the uncaught-exception code) whenever
the artifact copy ultimately fails. -/
theorem exit_code_semantics (root : String) (fs : FS) :
    ((run_script root fs).steps.contains Step.reap = true →
        (run_script root fs).exitCode = 0)
    ∧ (∀ e, copyfile (fs_after_mkdirs root fs) (executable_original root)
          (executable_copy_1 root) = .error e →
        (run_script root fs).exitCode ≠ 0) := by
  constructor
  · intro h
    rw [run_script_unfold] at h ⊢
    cases hc : copyfile (fs_after_mkdirs root fs) (executable_original root)
        (executable_copy_1 root) with
    | error e => rw [hc] at h; simp at h
    | ok fs2 => rfl
  · intro e he
    rw [run_script_unfold, he]
    simp

/-- C8 witness: exit 0 when the artifact exists and the child ran; exit
non-zero when the copy fails. -/
theorem exit_code_semantics_witness :
    (run_script "r" fsDemo).exitCode = 0
    ∧ (run_script "r" fsEmpty).exitCode ≠ 0 :=
  ⟨(exit_code_semantics "r" fsDemo).1 (by decide),
   (exit_code_semantics "r" fsEmpty).2 CopyReason.srcUnreadable (by decide)⟩

/-- C9 counterexample: an execution whose copy fails launches nothing at
all, so it is false that every execution performs exactly one launch. -/
theorem single_shot_counterexample :
    spawnArgvs (run_script "r" fsEmpty).steps = []
    ∧ (run_script "r" fsEmpty).exitCode = 1 := by
  decide

/-- C9 as amended: every execution performs at most one copy attempt and
at most one launch, never copies into slot 2, and never relaunches; an
execution that launches at all is the full success trace — one copy into
slot 1 before the single launch, which blocks until the child exits
(the reap) and then terminates. Rotation and change detection are left
to the launched executable via its watch arguments. -/
theorem single_shot_behavior (root : String) (fs : FS) :
    (copyAttemptsOf (run_script root fs).steps).length ≤ 1
    ∧ (spawnArgvs (run_script root fs).steps).length ≤ 1
    ∧ executable_copy_2 root ∉ copyDstsPerformed (run_script root fs).steps
    ∧ ∀ a, Step.spawn a ∈ (run_script root fs).steps →
        (run_script root fs).steps
          = [Step.mkdirs (copy_slot_dir root) true,
             Step.copyAttempt (executable_original root) (executable_copy_1 root) true,
             Step.spawn (script_argv root), Step.reap] := by
  refine ⟨?_, ?_, ?_, fun a h => (spawn_mem_success root fs a h).2⟩ <;>
    · rw [run_script_unfold]
      cases copyfile (fs_after_mkdirs root fs) (executable_original root)
          (executable_copy_1 root) <;>
        simp [copyAttemptsOf, spawnArgvs, copyDstsPerformed, (slots_distinct root).symm]

/-- C9 witness: the concrete successful run has exactly the four-step
trace with its single copy and single launch. -/
theorem single_shot_behavior_witness :
    (copyAttemptsOf (run_script "r" fsDemo).steps).length ≤ 1
    ∧ (spawnArgvs (run_script "r" fsDemo).steps).length ≤ 1
    ∧ executable_copy_2 "r" ∉ copyDstsPerformed (run_script "r" fsDemo).steps
    ∧ (run_script "r" fsDemo).steps
        = [Step.mkdirs (copy_slot_dir "r") true,
           Step.copyAttempt (executable_original "r") (executable_copy_1 "r") true,
           Step.spawn (script_argv "r"), Step.reap] :=
  ⟨(single_shot_behavior "r" fsDemo).1,
   (single_shot_behavior "r" fsDemo).2.1,
   (single_shot_behavior "r" fsDemo).2.2.1,
   (single_shot_behavior "r" fsDemo).2.2.2 (script_argv "r") (by decide)⟩
